import Mathlib

/-!
Verification of the synchronization core of the `osveijer-sockets` chess
client (`src/client/src/main.rs`).

The development shallowly embeds the transport worker's frame codec, its
polling loop body, and the application-side square encode/decode helpers.
Rust byte buffers (`Vec<u8>`) are modelled as `List Nat`; a Rust `String`
is modelled by its UTF-8 byte list (Rust strings are exactly the valid
UTF-8 byte sequences). Rust panics and `std::process::exit` are modelled
as explicit outcome constructors.
-/

/-- `MSG_SIZE` from main.rs line 14: max message size in bytes. -/
def MSG_SIZE : Nat := 32

/-- Model of Rust `Vec::resize(new_len, pad)`: truncates when the vector is
longer than `new_len`, extends with `pad` otherwise. -/
def vecResize (v : List Nat) (newLen : Nat) (pad : Nat) : List Nat :=
  if newLen ≤ v.length then v.take newLen
  else v ++ List.replicate (newLen - v.length) pad

/-- The outbound encode step (main.rs lines 314-316):
`msg.into_bytes()` followed by `msg_buffer.resize(MSG_SIZE, 0)`. -/
def encodeFrame (m : List Nat) : List Nat :=
  vecResize m MSG_SIZE 0

/-- UTF-8 continuation byte: `0x80 ≤ c ≤ 0xBF`. -/
def isCont (c : Nat) : Bool :=
  decide (0x80 ≤ c ∧ c ≤ 0xBF)

/-- Validity of a byte sequence as UTF-8, exactly the success condition of
Rust `String::from_utf8` (well-formed sequences, no overlong forms, no
surrogates, code points ≤ U+10FFFF). -/
def utf8Valid : List Nat → Bool
  | [] => true
  | b :: rest =>
    if b ≤ 0x7F then utf8Valid rest
    else if 0xC2 ≤ b ∧ b ≤ 0xDF then
      match rest with
      | c :: r => isCont c && utf8Valid r
      | [] => false
    else if b = 0xE0 then
      match rest with
      | c :: d :: r => decide (0xA0 ≤ c ∧ c ≤ 0xBF) && isCont d && utf8Valid r
      | _ => false
    else if (0xE1 ≤ b ∧ b ≤ 0xEC) ∨ b = 0xEE ∨ b = 0xEF then
      match rest with
      | c :: d :: r => isCont c && isCont d && utf8Valid r
      | _ => false
    else if b = 0xED then
      match rest with
      | c :: d :: r => decide (0x80 ≤ c ∧ c ≤ 0x9F) && isCont d && utf8Valid r
      | _ => false
    else if b = 0xF0 then
      match rest with
      | c :: d :: e :: r =>
        decide (0x90 ≤ c ∧ c ≤ 0xBF) && isCont d && isCont e && utf8Valid r
      | _ => false
    else if 0xF1 ≤ b ∧ b ≤ 0xF3 then
      match rest with
      | c :: d :: e :: r => isCont c && isCont d && isCont e && utf8Valid r
      | _ => false
    else if b = 0xF4 then
      match rest with
      | c :: d :: e :: r =>
        decide (0x80 ≤ c ∧ c ≤ 0x8F) && isCont d && isCont e && utf8Valid r
      | _ => false
    else false

/-- The inbound trim step (main.rs lines 291-294): collect the frame's bytes
up to the first zero byte (`take_while(|&x| x != 0)`). -/
def decodeBytes (frame : List Nat) : List Nat :=
  frame.takeWhile (fun x => x != 0)

/-- The full inbound decode (main.rs lines 291-295): trim at the first zero
byte, then `String::from_utf8`; `none` models the `expect` panic on invalid
UTF-8. -/
def decodeFrame (frame : List Nat) : Option (List Nat) :=
  if utf8Valid (decodeBytes frame) then some (decodeBytes frame) else none

example : encodeFrame [101, 50, 32, 101, 52] =
    [101, 50, 32, 101, 52] ++ List.replicate 27 0 := by decide

example : decodeFrame (encodeFrame [101, 50, 32, 101, 52]) =
    some [101, 50, 32, 101, 52] := by decide

example : decodeFrame (255 :: List.replicate 31 0) = none := by decide

/-- Result of the non-blocking `client.read_exact` call (main.rs line 287):
a full frame, `ErrorKind::WouldBlock`, or any other connection error. -/
inductive ReadEvent where
  | ok (frame : List Nat)
  | wouldBlock
  | connErr
deriving DecidableEq

/-- Result of a channel `try_recv` (main.rs lines 89, 311): a message, an
empty channel, or a disconnected channel. -/
inductive RecvEvent where
  | msg (m : List Nat)
  | empty
  | disconnected
deriving DecidableEq

/-- How one iteration of the transport worker's loop body ends:
`next` = fall through to the 100 ms sleep and the next iteration;
`breakLoop` = `break` out of the loop (worker thread ends, process lives);
`exitProcess` = `std::process::exit(1)` (whole process dies);
`panicked` = a panic unwinds the worker thread (process lives). -/
inductive StepOutcome where
  | next
  | breakLoop
  | exitProcess
  | panicked
deriving DecidableEq

/-- Observable effects of one loop-body iteration: the message pushed onto
the inbound channel (if any), the frames passed to `client.write_all`, and
the lines printed by `println!`. -/
structure StepEffects where
  inboundPush : Option (List Nat)
  writes : List (List Nat)
  logs : List String
deriving DecidableEq

/-- The environment of one loop-body iteration: what the socket read
returns, whether `send.send` on the inbound channel succeeds, what
`receiver.try_recv` on the outbound channel returns, and whether
`client.write_all` succeeds. -/
structure CycleInput where
  read : ReadEvent
  inboundSendOk : Bool
  recv : RecvEvent
  writeOk : Bool
deriving DecidableEq

/-- The outbound half of the loop body (main.rs lines 311-326): pop one
message from the outbound channel if present, encode it and attempt the
socket write (a failed write is only logged); `Disconnected` breaks the
loop. -/
def outboundPhase (rv : RecvEvent) (writeOk : Bool) (pushed : Option (List Nat)) :
    StepOutcome × StepEffects :=
  match rv with
  | RecvEvent.msg m =>
    let frame := encodeFrame m
    if writeOk then
      (StepOutcome.next, ⟨pushed, [frame], []⟩)
    else
      (StepOutcome.next, ⟨pushed, [frame], ["Failed to send message!"]⟩)
  | RecvEvent.empty => (StepOutcome.next, ⟨pushed, [], []⟩)
  | RecvEvent.disconnected => (StepOutcome.breakLoop, ⟨pushed, [], []⟩)

/-- One full iteration of the transport worker's loop body
(main.rs lines 283-329): the inbound read/decode/forward step followed —
unless the iteration already ended — by the outbound step. -/
def transportStep (inp : CycleInput) : StepOutcome × StepEffects :=
  match inp.read with
  | ReadEvent.ok frame =>
    match decodeFrame frame with
    | none => (StepOutcome.panicked, ⟨none, [], []⟩)
    | some msgBytes =>
      if inp.inboundSendOk then
        outboundPhase inp.recv inp.writeOk (some msgBytes)
      else
        (StepOutcome.exitProcess, ⟨none, [], ["crashed"]⟩)
  | ReadEvent.wouldBlock => outboundPhase inp.recv inp.writeOk none
  | ReadEvent.connErr =>
    (StepOutcome.breakLoop, ⟨none, [], ["Lost connection with server!"]⟩)

/-- Number of loop iterations actually executed on a schedule of cycle
environments: an iteration whose outcome is not `next` is the last one. -/
def cyclesRun : List CycleInput → Nat
  | [] => 0
  | inp :: rest =>
    match (transportStep inp).1 with
    | StepOutcome.next => 1 + cyclesRun rest
    | _ => 1

/-- All frames passed to `client.write_all` over a schedule of cycle
environments, in order; iterations after a non-`next` outcome never run. -/
def framesWritten : List CycleInput → List (List Nat)
  | [] => []
  | inp :: rest =>
    match transportStep inp with
    | (StepOutcome.next, eff) => eff.writes ++ framesWritten rest
    | (_, eff) => eff.writes

/-- Cycle environment of an idle socket: the read would block, the inbound
send would succeed, the outbound `try_recv` pops the head of the FIFO queue
`q` (std `mpsc` channels deliver in enqueue order), and writes succeed. -/
def wouldBlockInput (q : List (List Nat)) : CycleInput :=
  { read := ReadEvent.wouldBlock
    inboundSendOk := true
    recv := match q with
      | [] => RecvEvent.empty
      | m :: _ => RecvEvent.msg m
    writeOk := true }

/-- Run `n` iterations of the worker with an idle socket and the FIFO
outbound queue `q`, collecting the frames written. -/
def runOutbound : Nat → List (List Nat) → List (List Nat)
  | 0, _ => []
  | Nat.succ n, q =>
    match transportStep (wouldBlockInput q) with
    | (StepOutcome.next, eff) => eff.writes ++ runOutbound n q.tail
    | (_, eff) => eff.writes

example : runOutbound 3 [[100, 50, 32, 100, 52]] =
    [encodeFrame [100, 50, 32, 100, 52]] := by decide

/-- How the Application Worker's `update` step ends (main.rs lines 87-107):
`ok` = the handler returns `Ok(())`; `panicked` = an index panic unwinds. -/
inductive AppOutcome where
  | ok
  | panicked
deriving DecidableEq

/-- The Application Worker's per-frame `update` body (main.rs lines 89-105):
`try_recv` on the inbound channel; on a message, `msg.split(" ")` and index
`positions[0]`/`positions[1]` (a panic when there is no space), then
`make_move` on the external rules engine; `Empty` and `Disconnected` both
do nothing. The byte 32 is the ASCII space separator. -/
def appUpdateStep : RecvEvent → AppOutcome
  | RecvEvent.msg m =>
    let positions := m.splitOn 32
    if 2 ≤ positions.length then AppOutcome.ok else AppOutcome.panicked
  | RecvEvent.empty => AppOutcome.ok
  | RecvEvent.disconnected => AppOutcome.ok

/-- The file match of `pos_string` (main.rs lines 344-354): file index to
lowercase letter, panic (`none`) outside 0-7. -/
def fileCharOf : Nat → Option Char
  | 0 => some 'a'
  | 1 => some 'b'
  | 2 => some 'c'
  | 3 => some 'd'
  | 4 => some 'e'
  | 5 => some 'f'
  | 6 => some 'g'
  | 7 => some 'h'
  | _ => none

/-- Model of Rust `char::from_digit(n, 10)`. -/
def charFromDigit (n : Nat) : Option Char :=
  if n < 10 then some (Char.ofNat (48 + n)) else none

/-- `pos_string` (main.rs lines 341-361): a `(rank, file)` pair to its
two-character token, file letter first, then rank digit `rank + 1`;
`none` models the panics outside 0-7. -/
def pos_string (p : Nat × Nat) : Option (List Char) :=
  match fileCharOf p.2 with
  | none => none
  | some fc =>
    if p.1 ≤ 7 then
      match charFromDigit (p.1 + 1) with
      | some rc => some [fc, rc]
      | none => none
    else none

/-- The rank match inside `pos_coord_vec` (main.rs lines 370-380):
digit character to rank index, panic (`none`) otherwise. -/
def rankFromChar : Char → Option Nat
  | '1' => some 0
  | '2' => some 1
  | '3' => some 2
  | '4' => some 3
  | '5' => some 4
  | '6' => some 5
  | '7' => some 6
  | '8' => some 7
  | _ => none

/-- The file match inside `pos_coord_vec` (main.rs lines 381-391):
letter character to file index, panic (`none`) otherwise. -/
def fileFromChar : Char → Option Nat
  | 'a' => some 0
  | 'b' => some 1
  | 'c' => some 2
  | 'd' => some 3
  | 'e' => some 4
  | 'f' => some 5
  | 'g' => some 6
  | 'h' => some 7
  | _ => none

/-- One iteration of the `pos_coord_vec` loop body: index `chars[1]` and
`chars[0]` (panic when the token is shorter than two characters) and match
both characters. -/
def coordOfToken (chars : List Char) : Option (Nat × Nat) :=
  match chars[1]? with
  | none => none
  | some c1 =>
    match rankFromChar c1 with
    | none => none
    | some r =>
      match chars[0]? with
      | none => none
      | some c0 =>
        match fileFromChar c0 with
        | none => none
        | some f => some (r, f)

/-- `pos_coord_vec` (main.rs lines 363-398): `None` input gives the empty
vector; `Some v` converts each token, the result being `none` when any
token makes the Rust code panic. -/
def pos_coord_vec (v : Option (List (List Char))) : Option (List (Nat × Nat)) :=
  match v with
  | some l => l.mapM coordOfToken
  | none => some []

example : pos_string (1, 3) = some ['d', '2'] := by decide
example : pos_coord_vec (some [['d', '2']]) = some [(1, 3)] := by decide
example : pos_coord_vec none = some [] := by decide

/-- The click-relevant slice of `AppState` (main.rs lines 38-39):
the selected square and the highlighted destination squares. -/
structure AppClickState where
  selected : Option (Nat × Nat)
  highlighted : List (Nat × Nat)
deriving DecidableEq

/-- How the `mouse_button_up_event` handler ends:
`ret` = the handler returns with the updated click state;
`exitProcess` = `sender.send` failed, `println!("crashed")` then
`std::process::exit(1)`, carrying the message whose send failed;
`panicked` = a `pos_string`/`pos_coord_vec` panic unwinds. -/
inductive ClickResult where
  | ret (s : AppClickState)
  | exitProcess (attempted : List Char)
  | panicked
deriving DecidableEq

/-- `mouse_button_up_event` for a left click (main.rs lines 187-228), with
the square already computed from the pixel position and the two rules-engine
inputs abstracted: `activePiece` is `get_colour(board[rank][file])` being
`Some` of the active colour, `possible` is `get_possible_moves` of the
clicked square. `sendOk` is whether `sender.send` on the outbound channel
succeeds. -/
def mouseButtonUp (st : AppClickState) (rank file : Nat) (sendOk : Bool)
    (activePiece : Bool) (possible : Option (List (List Char))) : ClickResult :=
  match st.selected with
  | some pos =>
    if pos = (rank, file) then
      ClickResult.ret { selected := none, highlighted := [] }
    else if (rank, file) ∈ st.highlighted then
      match pos_string pos, pos_string (rank, file) with
      | some s1, some s2 =>
        if sendOk then
          ClickResult.ret { selected := none, highlighted := [] }
        else
          ClickResult.exitProcess (s1 ++ [' '] ++ s2)
      | _, _ => ClickResult.panicked
    else
      match (if activePiece then pos_coord_vec possible else some []) with
      | some hl => ClickResult.ret { selected := some (rank, file), highlighted := hl }
      | none => ClickResult.panicked
  | none =>
    match (if activePiece then pos_coord_vec possible else some []) with
    | some hl => ClickResult.ret { selected := some (rank, file), highlighted := hl }
    | none => ClickResult.panicked

example :
    mouseButtonUp { selected := some (6, 0), highlighted := [(4, 0)] } 4 0 false true none =
      ClickResult.exitProcess ['a', '7', ' ', 'a', '5'] := by decide

/-- Trimming at the first zero byte passes over a zero-free block. -/
theorem takeWhile_nonzero_append (l r : List Nat) (h : (0 : Nat) ∉ l) :
    (l ++ r).takeWhile (fun x => x != 0) = l ++ r.takeWhile (fun x => x != 0) :=
  List.takeWhile_append_of_pos (fun a ha => by
    simp only [bne_iff_ne, ne_eq]
    intro e
    exact h (e ▸ ha))

/-- A worker run over an empty outbound queue writes nothing. -/
theorem runOutbound_nil (k : Nat) : runOutbound k [] = [] := by
  induction k with
  | zero => rfl
  | succ n ih => exact ih

/-- Enough idle-socket cycles drain the outbound queue into exactly its
image under the frame encoder, in queue order. -/
theorem runOutbound_drains (q : List (List Nat)) :
    ∀ k : Nat, runOutbound (q.length + k) q = q.map encodeFrame := by
  induction q with
  | nil => intro k; exact runOutbound_nil (List.length [] + k)
  | cons m t ih =>
    intro k
    have hlen : (m :: t).length + k = (t.length + k) + 1 := by
      simp only [List.length_cons]
      omega
    rw [hlen]
    show encodeFrame m :: runOutbound (t.length + k) t = (m :: t).map encodeFrame
    rw [ih k]
    simp

/-- C1: a Move Message of byte length below 32 with no zero byte, encoded
into the 32-byte zero-padded frame by the outbound step and decoded by the
inbound step (trim at the first zero byte, then UTF-8), comes back intact. -/
theorem decode_encode_roundtrip (m : List Nat) (hlen : m.length < 32)
    (hz : (0 : Nat) ∉ m) (hutf : utf8Valid m = true) :
    decodeFrame (encodeFrame m) = some m := by
  have henc : encodeFrame m = m ++ List.replicate (32 - m.length) 0 := by
    unfold encodeFrame vecResize MSG_SIZE
    rw [if_neg (by omega)]
  have hdec : decodeBytes (encodeFrame m) = m := by
    rw [henc]
    unfold decodeBytes
    rw [takeWhile_nonzero_append m _ hz, List.takeWhile_replicate]
    simp
  unfold decodeFrame
  rw [hdec, hutf]
  simp

/-- C1 witness: the round trip evaluated on the bytes of `"e2 e4"`. -/
theorem decode_encode_roundtrip_witness :
    ([101, 50, 32, 101, 52] : List Nat).length < 32
    ∧ (0 : Nat) ∉ ([101, 50, 32, 101, 52] : List Nat)
    ∧ utf8Valid [101, 50, 32, 101, 52] = true
    ∧ decodeFrame (encodeFrame [101, 50, 32, 101, 52]) = some [101, 50, 32, 101, 52] :=
  ⟨by decide, by decide, by decide,
    decode_encode_roundtrip [101, 50, 32, 101, 52] (by decide) (by decide) (by decide)⟩

/-- C2 counterexample: on the 33-byte message of letter `a` repeated, the
encode step writes exactly the message's first 32 bytes — a frame that is a
proper prefix of the message (extending it by one byte recovers the
message), so the message is silently truncated, not rejected. -/
theorem encode_truncates_cex :
    encodeFrame (List.replicate 33 97) = List.replicate 32 97
    ∧ List.replicate 32 97 ++ [97] = List.replicate 33 97
    ∧ List.replicate 32 97 ≠ List.replicate 33 97 := by
  refine ⟨by decide, by decide, by decide⟩

/-- C2 (amended): the encode step does not reject an over-long message; a
message of byte length at least 32 is silently truncated to its first 32
bytes, and for byte length above 32 the written frame is strictly shorter
than the message (a proper prefix of it). -/
theorem encode_truncates (m : List Nat) (h : 32 ≤ m.length) :
    encodeFrame m = m.take 32
    ∧ (encodeFrame m).length = 32
    ∧ (32 < m.length → (encodeFrame m).length < m.length) := by
  have he : encodeFrame m = m.take 32 := by
    unfold encodeFrame vecResize MSG_SIZE
    rw [if_pos h]
  refine ⟨he, ?_, ?_⟩
  · rw [he, List.length_take]
    omega
  · intro hlt
    rw [he, List.length_take]
    omega

/-- C2 witness: the amended statement evaluated on the 33-byte message. -/
theorem encode_truncates_witness :
    32 ≤ (List.replicate 33 97 : List Nat).length
    ∧ (encodeFrame (List.replicate 33 97) = (List.replicate 33 (97 : Nat)).take 32
      ∧ (encodeFrame (List.replicate 33 97)).length = 32
      ∧ (32 < (List.replicate 33 (97 : Nat)).length →
          (encodeFrame (List.replicate 33 97)).length < (List.replicate 33 (97 : Nat)).length)) :=
  ⟨by decide, encode_truncates (List.replicate 33 97) (by decide)⟩

/-- C10: the inbound trim ignores everything after the first zero byte:
a frame that is a zero-free block followed by a zero decodes to that block,
whatever follows the zero; two frames agreeing up to and including their
first zero decode alike (also after the UTF-8 step), and the decoded bytes
never contain a zero. -/
theorem decode_ignores_after_zero (p s1 s2 : List Nat) (hp : (0 : Nat) ∉ p) :
    decodeBytes (p ++ 0 :: s1) = p
    ∧ decodeBytes (p ++ 0 :: s2) = decodeBytes (p ++ 0 :: s1)
    ∧ decodeFrame (p ++ 0 :: s2) = decodeFrame (p ++ 0 :: s1)
    ∧ (0 : Nat) ∉ decodeBytes (p ++ 0 :: s1) := by
  have key : ∀ s : List Nat, decodeBytes (p ++ 0 :: s) = p := by
    intro s
    unfold decodeBytes
    rw [takeWhile_nonzero_append p _ hp]
    simp
  refine ⟨key s1, by rw [key s1, key s2], ?_, by rw [key s1]; exact hp⟩
  unfold decodeFrame
  rw [key s1, key s2]

/-- C10 witness: two frames sharing the block `[101, 50]` before their
first zero but differing afterwards decode to the same message. -/
theorem decode_ignores_after_zero_witness :
    (0 : Nat) ∉ ([101, 50] : List Nat)
    ∧ (decodeBytes ([101, 50] ++ 0 :: [7]) = [101, 50]
      ∧ decodeBytes ([101, 50] ++ 0 :: [9, 9]) = decodeBytes ([101, 50] ++ 0 :: [7])
      ∧ decodeFrame ([101, 50] ++ 0 :: [9, 9]) = decodeFrame ([101, 50] ++ 0 :: [7])
      ∧ (0 : Nat) ∉ decodeBytes ([101, 50] ++ 0 :: [7])) :=
  ⟨by decide, decode_ignores_after_zero [101, 50] [7] [9, 9] (by decide)⟩

/-- C5: for every square `(rank, file)` with both indices in 0-7, the
two-character token produced by `pos_string` is mapped back to exactly
`(rank, file)` by `pos_coord_vec`: decode after encode is the identity on
the board, both directions using the same rank-to-digit mapping
(`digit = rank + 1`). -/
theorem square_roundtrip (r f : Nat) (hr : r < 8) (hf : f < 8) :
    (pos_string (r, f)).bind (fun s => pos_coord_vec (some [s])) = some [(r, f)] := by
  have h : ∀ r, r < 8 → ∀ f, f < 8 →
      (pos_string (r, f)).bind (fun s => pos_coord_vec (some [s])) = some [(r, f)] := by
    decide
  exact h r hr f hf

/-- C5 witness: the round trip evaluated on the square `(6, 2)`
(token `"c7"`). -/
theorem square_roundtrip_witness :
    (6 : Nat) < 8 ∧ (2 : Nat) < 8
    ∧ (pos_string (6, 2)).bind (fun s => pos_coord_vec (some [s])) = some [(6, 2)] :=
  ⟨by decide, by decide, square_roundtrip 6 2 (by decide) (by decide)⟩

/-- C6: with an idle socket, draining a FIFO outbound queue produces exactly
one frame write per dequeued message, the write sequence being the queue's
image under the frame encoder in enqueue order; in particular the queue
`"d2 d4"`, `"g1 f3"` is written in that order. -/
theorem outbound_order_preserved :
    (∀ (q : List (List Nat)) (k : Nat), runOutbound (q.length + k) q = q.map encodeFrame)
    ∧ runOutbound 2 [[100, 50, 32, 100, 52], [103, 49, 32, 102, 51]] =
        [encodeFrame [100, 50, 32, 100, 52], encodeFrame [103, 49, 32, 102, 51]] :=
  ⟨fun q k => runOutbound_drains q k, by decide⟩

/-- C7: a socket read error other than would-block makes the transport
worker break out of its loop in that same iteration: the iteration's
outcome is `breakLoop`, exactly one iteration of the schedule runs
(so no further reads), and no frame is ever written from that iteration on,
whatever the outbound channel held or would hold. -/
theorem connection_error_stops_worker (sOk wOk : Bool) (rv : RecvEvent)
    (rest : List CycleInput) :
    (transportStep ⟨ReadEvent.connErr, sOk, rv, wOk⟩).1 = StepOutcome.breakLoop
    ∧ cyclesRun (⟨ReadEvent.connErr, sOk, rv, wOk⟩ :: rest) = 1
    ∧ framesWritten (⟨ReadEvent.connErr, sOk, rv, wOk⟩ :: rest) = [] :=
  ⟨rfl, rfl, rfl⟩

/-- C9: when the socket write of an outbound frame fails, the iteration only
logs `"Failed to send message!"`: the frame was attempted exactly once, the
message is dropped, the outcome is `next`, and the loop goes on to run the
remaining schedule. -/
theorem write_failure_recoverable (m : List Nat) (sOk : Bool) (rest : List CycleInput) :
    transportStep ⟨ReadEvent.wouldBlock, sOk, RecvEvent.msg m, false⟩ =
      (StepOutcome.next, ⟨none, [encodeFrame m], ["Failed to send message!"]⟩)
    ∧ cyclesRun (⟨ReadEvent.wouldBlock, sOk, RecvEvent.msg m, false⟩ :: rest) =
        1 + cyclesRun rest :=
  ⟨rfl, rfl⟩

/-- C3 counterexample: on the frame whose pre-zero byte `255` is not valid
UTF-8, the iteration's outcome is `panicked` — the `expect` call unwinds
the worker thread — and in particular it is not `next`: the worker's loop
does not continue and the connection is no longer serviced. -/
theorem invalid_utf8_cex :
    (transportStep ⟨ReadEvent.ok (255 :: List.replicate 31 0), true, RecvEvent.empty, true⟩).1
      = StepOutcome.panicked
    ∧ (transportStep ⟨ReadEvent.ok (255 :: List.replicate 31 0), true, RecvEvent.empty, true⟩).1
      ≠ StepOutcome.next := by
  refine ⟨by decide, by decide⟩

/-- C3 (amended): a full frame whose bytes before the first zero are not
valid UTF-8 makes the decode `expect` panic, which terminates the transport
worker thread in that iteration: nothing is forwarded, nothing is written,
and the loop does not continue — the failure is not confined to the single
frame (the rest of the process keeps running, but the connection is dead). -/
theorem invalid_utf8_kills_worker (frame : List Nat) (sOk wOk : Bool) (rv : RecvEvent)
    (h : utf8Valid (decodeBytes frame) = false) :
    transportStep ⟨ReadEvent.ok frame, sOk, rv, wOk⟩ =
      (StepOutcome.panicked, ⟨none, [], []⟩) := by
  have hd : decodeFrame frame = none := by
    unfold decodeFrame
    rw [h]
    simp
  simp [transportStep, hd]

/-- C3 witness: the amended statement evaluated on the frame starting with
byte `254`. -/
theorem invalid_utf8_kills_worker_witness :
    utf8Valid (decodeBytes (254 :: List.replicate 31 0)) = false
    ∧ transportStep ⟨ReadEvent.ok (254 :: List.replicate 31 0), true, RecvEvent.empty, true⟩
        = (StepOutcome.panicked, ⟨none, [], []⟩) :=
  ⟨by decide,
    invalid_utf8_kills_worker (254 :: List.replicate 31 0) true true RecvEvent.empty (by decide)⟩

/-- C4 counterexample: when the frame carrying `"e2 e4"` decodes but the
inbound channel push fails, the iteration's outcome is `exitProcess`
(`std::process::exit(1)`), not `breakLoop`: the worker does not merely exit
its loop, it takes the whole process — the Application Worker included —
down with it. -/
theorem inbound_push_failure_cex :
    (transportStep
        ⟨ReadEvent.ok (encodeFrame [101, 50, 32, 101, 52]), false, RecvEvent.empty, true⟩).1
      = StepOutcome.exitProcess
    ∧ StepOutcome.exitProcess ≠ StepOutcome.breakLoop := by
  refine ⟨by decide, by decide⟩

/-- C4 (amended): when an inbound frame decodes to a message but the push
onto the inbound channel fails because the receive half is gone, the
transport worker prints `"crashed"` and terminates the whole process via
`exit(1)` — the Application Worker does not keep running; separately, when
the Application Worker's own `try_recv` reports `Disconnected`, its update
step does nothing and does not crash. -/
theorem inbound_push_failure_exits_process (frame msgBytes : List Nat) (rv : RecvEvent)
    (wOk : Bool) (h : decodeFrame frame = some msgBytes) :
    transportStep ⟨ReadEvent.ok frame, false, rv, wOk⟩ =
      (StepOutcome.exitProcess, ⟨none, [], ["crashed"]⟩)
    ∧ appUpdateStep RecvEvent.disconnected = AppOutcome.ok := by
  refine ⟨?_, rfl⟩
  simp [transportStep, h]

/-- C4 witness: the amended statement evaluated on the frame of `"g1 f3"`. -/
theorem inbound_push_failure_witness :
    decodeFrame (encodeFrame [103, 49, 32, 102, 51]) = some [103, 49, 32, 102, 51]
    ∧ (transportStep
          ⟨ReadEvent.ok (encodeFrame [103, 49, 32, 102, 51]), false, RecvEvent.empty, true⟩
        = (StepOutcome.exitProcess, ⟨none, [], ["crashed"]⟩)
      ∧ appUpdateStep RecvEvent.disconnected = AppOutcome.ok) :=
  ⟨by decide,
    inbound_push_failure_exits_process (encodeFrame [103, 49, 32, 102, 51])
      [103, 49, 32, 102, 51] RecvEvent.empty true (by decide)⟩

/-- C8: when a click finalizes a move (a square was selected and the clicked
square is among the highlighted destinations) and the outbound channel send
fails, the handler reaches `std::process::exit(1)` immediately, carrying the
move message it attempted to send. -/
theorem send_failure_exits_process (st : AppClickState) (pos : Nat × Nat) (rank file : Nat)
    (activePiece : Bool) (possible : Option (List (List Char))) (s1 s2 : List Char)
    (hsel : st.selected = some pos) (hne : pos ≠ (rank, file))
    (hmem : (rank, file) ∈ st.highlighted)
    (h1 : pos_string pos = some s1) (h2 : pos_string (rank, file) = some s2) :
    mouseButtonUp st rank file false activePiece possible =
      ClickResult.exitProcess (s1 ++ [' '] ++ s2) := by
  simp [mouseButtonUp, hsel, hne, hmem, h1, h2]

/-- C8 witness: the failing push evaluated on the move `"a7 a5"`
(selected square `(6, 0)`, clicked square `(4, 0)`). -/
theorem send_failure_exits_process_witness :
    ({ selected := some (6, 0), highlighted := [(4, 0)] } : AppClickState).selected
        = some (6, 0)
    ∧ ((6, 0) : Nat × Nat) ≠ (4, 0)
    ∧ ((4, 0) : Nat × Nat) ∈ ({ selected := some (6, 0), highlighted := [(4, 0)] } : AppClickState).highlighted
    ∧ pos_string (6, 0) = some ['a', '7']
    ∧ pos_string (4, 0) = some ['a', '5']
    ∧ mouseButtonUp { selected := some (6, 0), highlighted := [(4, 0)] } 4 0 false true none
        = ClickResult.exitProcess (['a', '7'] ++ [' '] ++ ['a', '5']) :=
  ⟨rfl, by decide, by decide, by decide, by decide,
    send_failure_exits_process { selected := some (6, 0), highlighted := [(4, 0)] }
      (6, 0) 4 0 true none ['a', '7'] ['a', '5'] rfl (by decide) (by decide)
      (by decide) (by decide)⟩







